import Mathlib

/-!
Shallow embedding of the measure-query and aggregation core of `src/main.py`
(a FastAPI service over a SQLite store of sensor readings), together with
proofs about its three read operations (`sensorList`, `sensorMinMax`,
`measureFilter`) and the authentication gate (`get_current_user`,
`get_current_admin`).

Modelling conventions:
- The SQLite tables are a `Database` record of lists, scanned in row order.
- `rtime` is kept as its stored text (SQLite TEXT affinity for datetimes);
  SQL comparisons and `LIKE 'd%'` on that column are text comparisons, so
  they are modelled on `String.data` with the lexicographic order on
  `List Char`.
- `rvalue` is a Python float in the source; only its ordering and zero-ness
  matter to the endpoints, so it is modelled as an exact `Int`.
- `ORDER BY k LIMIT 1` queries are modelled as the least/greatest element of
  the scanned rows under the ordering key (ties between equal keys are
  implementation-defined in the source and in the model).
-/

namespace AranetApi

/-- Row of the `sensors` table (src/main.py, class `Sensor`). -/
structure Sensor where
  sensor_id : Nat
  serial_code : String
  name : String
deriving DecidableEq, Repr

/-- Row of the `metrics` table (src/main.py, class `Metric`). -/
structure Metric where
  metric_id : Nat
  metric_name : String
  unit_id : Nat
deriving DecidableEq, Repr

/-- Row of the `measures` table (src/main.py, class `Measure`).  `rtime` is
the stored timestamp text; `rvalue` the numeric reading. -/
structure Measure where
  reading_id : Nat
  sensor_id : Nat
  metric_id : Nat
  rtime : String
  rvalue : Int
deriving DecidableEq, Repr

/-- Response record of `sensorList` (src/main.py, class `SensorWithMeasure`).
Note that `latest_measure` embeds a full `Measure` row, exactly as in the
source class. -/
structure SensorWithMeasure where
  sensor_id : Nat
  serial_code : String
  name : String
  latest_measure : Option Measure
deriving DecidableEq, Repr

/-- Per-metric entry of `sensorMinMax` (src/main.py, class `MetricMinMax`). -/
structure MetricMinMax where
  metric : String
  min_value : Option Int
  max_value : Option Int
deriving DecidableEq, Repr

/-- Per-sensor record of `sensorMinMax` (src/main.py, class `SensorMinMax`).
The `date` field keeps the target date in its canonical text form. -/
structure SensorMinMax where
  sensor : Sensor
  date : String
  metrics : List MetricMinMax
deriving DecidableEq, Repr

/-- Authenticated caller (src/main.py, classes `User` / `UserInDB`). -/
structure UserInDB where
  username : String
  role : String
  password : String
deriving DecidableEq, Repr

/-- HTTP error raised by the dependency chain (FastAPI `HTTPException`). -/
structure HTTPError where
  status_code : Nat
  detail : String
deriving DecidableEq, Repr

/-- The relational store the queries scan: the three tables the endpoints
read (the `units` table is never consulted by them). -/
structure Database where
  sensors : List Sensor
  metrics : List Metric
  measures : List Measure
deriving DecidableEq, Repr

/-- First recognized user (src/main.py, `fake_users_db`). -/
def johnUser : UserInDB :=
  { username := ("john_user"), role := ("user"), password := ("password") }

/-- Second recognized user (src/main.py, `fake_users_db`). -/
def alvinAdmin : UserInDB :=
  { username := ("alvin_admin"), role := ("admin"), password := ("password123") }

/-- The two recognized users (src/main.py, `fake_users_db`), keyed by
username; the bearer token of the service is just the username. -/
def fake_users_db : List (String × UserInDB) :=
  [(("john_user"), johnUser), (("alvin_admin"), alvinAdmin)]

/-- Text comparison used for the `rtime` column: SQLite compares TEXT
datetimes lexicographically. -/
def timeLe (a b : String) : Bool := decide (a.data ≤ b.data)

/-- Strict version of `timeLe`. -/
def timeLt (a b : String) : Bool := decide (a.data < b.data)

/-- Where-clause `Measure.rtime.like(f"{target_date}%")` of `sensorMinMax`:
SQL `LIKE 'd%'` holds iff the stored text of `rtime` starts with the date's
canonical text (the date pattern contains no `%`/`_` wildcards and no
letters, so LIKE degenerates to a plain prefix test). -/
def rtimeLikeDate (target_date : String) (msr : Measure) : Bool :=
  target_date.data.isPrefixOf msr.rtime.data

/-- Rows scanned by both min and max queries of `sensorMinMax`: the three
shared where-clauses on sensor, metric and date. -/
def minMaxRows (db : Database) (target_date : String) (sid mid : Nat) : List Measure :=
  db.measures.filter (fun msr =>
    msr.sensor_id == sid && msr.metric_id == mid && rtimeLikeDate target_date msr)

/-- Projected `select(Measure.rvalue)` column of the rows of `minMaxRows`. -/
def rowValues (db : Database) (target_date : String) (sid mid : Nat) : List Int :=
  (minMaxRows db target_date sid mid).map (fun msr => msr.rvalue)

/-- Result of `ORDER BY rvalue ASC LIMIT 1` on a projected value column:
the least value, `none` on an empty row set. -/
def listMin : List Int → Option Int
  | [] => none
  | v :: vs =>
    match listMin vs with
    | none => some v
    | some w => some (min v w)

/-- Result of `ORDER BY rvalue DESC LIMIT 1` on a projected value column:
the greatest value, `none` on an empty row set. -/
def listMax : List Int → Option Int
  | [] => none
  | v :: vs =>
    match listMax vs with
    | none => some v
    | some w => some (max v w)

/-- Result of `ORDER BY rtime DESC LIMIT 1` on a row set (the
`.first()` of the `sensorList` query): a row whose `rtime` is maximal,
`none` on an empty row set.  Ties between equal timestamps are
implementation-defined in the source (SQLite's scan order); the model keeps
the later-scanned row. -/
def firstByRtimeDesc : List Measure → Option Measure
  | [] => none
  | msr :: rest =>
    match firstByRtimeDesc rest with
    | none => some msr
    | some best => if timeLt best.rtime msr.rtime then some msr else some best

/-- Query of the `sensorList` loop body: `select(Measure)` where
`sensor_id` matches, ordered by `rtime` descending, first row. -/
def latestFor (db : Database) (sid : Nat) : Option Measure :=
  firstByRtimeDesc (db.measures.filter (fun msr => msr.sensor_id == sid))

/-- Endpoint `GET /sensorList` (src/main.py, `sensorList`): every sensor,
each paired with the first row of its measures ordered by `rtime`
descending. -/
def sensorList (db : Database) : List SensorWithMeasure :=
  db.sensors.map (fun s =>
    { sensor_id := s.sensor_id, serial_code := s.serial_code, name := s.name,
      latest_measure := latestFor db s.sensor_id })

/-- Inner loop body of `GET /sensorMinMax` (src/main.py, `sensorMinMax`)
for one sensor and one metric: it runs the min query; the source then
tests the result with `if query_min_value:`, which in Python is false both
for `None` (no matching row) and for a minimum of `0.0` (float zero is
falsy), and only in the truthy case runs the max query and yields an
entry. -/
def metricEntry (db : Database) (target_date : String) (sid : Nat)
    (mt : Metric) : Option MetricMinMax :=
  let query_min_value := listMin (rowValues db target_date sid mt.metric_id)
  match query_min_value with
  | none => none
  | some mn =>
    if mn == 0 then none
    else
      let query_max_value := listMax (rowValues db target_date sid mt.metric_id)
      some { metric := mt.metric_name, min_value := some mn,
             max_value := query_max_value }

/-- Per-sensor record construction of `sensorMinMax`: the inner loop over
`select(Metric)` keeps only the entries `metricEntry` produces. -/
def sensorRecord (db : Database) (target_date : String) (s : Sensor) : SensorMinMax :=
  { sensor := s, date := target_date,
    metrics := db.metrics.filterMap (metricEntry db target_date s.sensor_id) }

/-- Outer loop of `sensorMinMax`: one record per scanned sensor. -/
def sensorMinMax (db : Database) (target_date : String) : List SensorMinMax :=
  db.sensors.map (sensorRecord db target_date)

/-- Optional query parameters of `GET /measureFilter`. -/
structure MeasureFilterQuery where
  target_sensor_id : Option Nat
  target_metric_id : Option Nat
  time_from : Option String
  time_to : Option String
  value_from : Option Int
  value_to : Option Int
deriving DecidableEq, Repr

/-- Query with all six parameters absent. -/
def noFilter : MeasureFilterQuery :=
  { target_sensor_id := none, target_metric_id := none, time_from := none,
    time_to := none, value_from := none, value_to := none }

/-- Core of `GET /measureFilter` (src/main.py, `measureFilter`): starts from
`select(Measure)` and conjoins one where-clause per present parameter, then
executes the query. -/
def measureFilter (db : Database) (q : MeasureFilterQuery) : List Measure :=
  let query := db.measures
  let query := match q.target_sensor_id with
    | none => query
    | some v => query.filter (fun msr => msr.sensor_id == v)
  let query := match q.target_metric_id with
    | none => query
    | some v => query.filter (fun msr => msr.metric_id == v)
  let query := match q.time_from with
    | none => query
    | some v => query.filter (fun msr => timeLe v msr.rtime)
  let query := match q.time_to with
    | none => query
    | some v => query.filter (fun msr => timeLe msr.rtime v)
  let query := match q.value_from with
    | none => query
    | some v => query.filter (fun msr => decide (v ≤ msr.rvalue))
  let query := match q.value_to with
    | none => query
    | some v => query.filter (fun msr => decide (msr.rvalue ≤ v))
  query

/-- Dependency `get_current_user` (src/main.py): the bearer token is looked
up directly in `fake_users_db`; an unknown token raises 401 before any
endpoint body runs. -/
def get_current_user (token : String) : Except HTTPError UserInDB :=
  match fake_users_db.lookup token with
  | none => .error { status_code := 401, detail := ("Not authenticated") }
  | some user_dict => .ok user_dict

/-- Dependency `get_current_admin` (src/main.py): chains `get_current_user`
and additionally raises 403 when the resolved role is not `admin`. -/
def get_current_admin (token : String) : Except HTTPError UserInDB :=
  match get_current_user token with
  | .error e => .error e
  | .ok current_user =>
    if current_user.role = ("admin") then .ok current_user
    else .error { status_code := 403, detail := ("Not enough permissions") }

/-- Endpoint `GET /sensorMinMax` including its dependency chain: the body
runs only after `get_current_user` succeeds; the body itself never consults
the caller. -/
def sensorMinMaxEndpoint (db : Database) (token : String) (target_date : String) :
    Except HTTPError (List SensorMinMax) :=
  match get_current_user token with
  | .error e => .error e
  | .ok _ => .ok (sensorMinMax db target_date)

/-- Endpoint `GET /measureFilter` including its dependency chain: the body
runs only after `get_current_admin` succeeds; the body itself never
consults the caller. -/
def measureFilterEndpoint (db : Database) (token : String) (q : MeasureFilterQuery) :
    Except HTTPError (List Measure) :=
  match get_current_admin token with
  | .error e => .error e
  | .ok _ => .ok (measureFilter db q)

set_option linter.unusedVariables false in
/-- Default of the `target_date` parameter (src/main.py line 147,
`target_date: date = date.today()`).  Python evaluates a default expression
once, when the `def` statement executes as the module loads; every later
request that omits `target_date` reuses that load-time value.
`startup_date` is the value `date.today()` produced at load time and
`call_date` is the current date when the request arrives; the source's
semantics make the result independent of `call_date`. -/
def defaultedTargetDate (startup_date call_date : String)
    (target_date : Option String) : String :=
  target_date.getD startup_date

/-- Endpoint core of `sensorMinMax` with the default-argument resolution of
line 147 made explicit. -/
def sensorMinMaxDefaulted (db : Database) (startup_date call_date : String)
    (target_date : Option String) : List SensorMinMax :=
  sensorMinMax db (defaultedTargetDate startup_date call_date target_date)

/-! Concrete fixtures used by witnesses and counterexamples. -/

/-- Example sensor 1. -/
def exSensorA : Sensor := { sensor_id := 1, serial_code := ("A1"), name := ("alpha") }

/-- Example sensor 22 (Scenario A of the spec). -/
def exSensor22 : Sensor := { sensor_id := 22, serial_code := ("S22"), name := ("s22") }

/-- Example sensor 7, kept without any measures. -/
def exSensor7 : Sensor := { sensor_id := 7, serial_code := ("S7"), name := ("seven") }

/-- Example metric. -/
def exMetricT : Metric := { metric_id := 1, metric_name := ("temperature"), unit_id := 1 }

/-- Measure whose reading is exactly zero, for the falsy-minimum input. -/
def exMeasureZero : Measure :=
  { reading_id := 1, sensor_id := 1, metric_id := 1,
    rtime := ("2019-07-28 03:00:00"), rvalue := 0 }

/-- Scenario A measure at 03:00. -/
def exMeasureA1 : Measure :=
  { reading_id := 1, sensor_id := 22, metric_id := 1,
    rtime := ("2019-07-02 03:00:00"), rvalue := 25 }

/-- Scenario A measure at 06:00. -/
def exMeasureA2 : Measure :=
  { reading_id := 2, sensor_id := 22, metric_id := 1,
    rtime := ("2019-07-02 06:00:00"), rvalue := 24 }

/-- Sensor 1 measure at 03:00 with value 25. -/
def exMeasureB1 : Measure :=
  { reading_id := 1, sensor_id := 1, metric_id := 1,
    rtime := ("2019-07-28 03:00:00"), rvalue := 25 }

/-- Sensor 1 measure at 06:00 with value 24. -/
def exMeasureB2 : Measure :=
  { reading_id := 2, sensor_id := 1, metric_id := 1,
    rtime := ("2019-07-28 06:00:00"), rvalue := 24 }

/-- Store for the falsy-minimum input of claim C1. -/
def exDbZero : Database :=
  { sensors := [exSensorA], metrics := [exMetricT], measures := [exMeasureZero] }

/-- Store for Scenario A (sensor 22, two measures on 2019-07-02). -/
def exDbA : Database :=
  { sensors := [exSensor22], metrics := [exMetricT],
    measures := [exMeasureA1, exMeasureA2] }

/-- Store with sensor 1 holding two measures on 2019-07-28. -/
def exDbB : Database :=
  { sensors := [exSensorA], metrics := [exMetricT],
    measures := [exMeasureB1, exMeasureB2] }

/-- Store in which sensor 7 has zero measures (the only measure belongs to
sensor 22). -/
def exDb7 : Database :=
  { sensors := [exSensor7], metrics := [exMetricT], measures := [exMeasureA1] }

/-- Scenario A filter: sensor 22, metric 1, closed time and value intervals. -/
def exQueryA : MeasureFilterQuery :=
  { target_sensor_id := some 22, target_metric_id := some 1,
    time_from := some ("2019-07-02 01:00:00"),
    time_to := some ("2019-07-02 07:00:00"),
    value_from := some 24, value_to := some 26 }

/-- Aggregated entry produced for `exDbB` on 2019-07-28. -/
def exEntryB : MetricMinMax :=
  { metric := ("temperature"), min_value := some 24, max_value := some 25 }

/-- Aggregated record produced for `exDbB` on 2019-07-28. -/
def exRecordB : SensorMinMax :=
  { sensor := exSensorA, date := ("2019-07-28"), metrics := [exEntryB] }

/-- Listing record produced by `sensorList` on `exDbB`. -/
def exSwB : SensorWithMeasure :=
  { sensor_id := 1, serial_code := ("A1"), name := ("alpha"),
    latest_measure := some exMeasureB2 }

/-- Listing record produced by `sensorList` on `exDb7` for sensor 7. -/
def exSw7 : SensorWithMeasure :=
  { sensor_id := 7, serial_code := ("S7"), name := ("seven"),
    latest_measure := none }

/-! Helper lemmas about the query primitives. -/

theorem listMin_eq_none_iff (l : List Int) : listMin l = none ↔ l = [] := by
  cases l with
  | nil => simp [listMin]
  | cons v vs =>
    simp only [listMin]
    cases listMin vs <;> simp

theorem listMin_mem (l : List Int) (v : Int) (h : listMin l = some v) : v ∈ l := by
  induction l generalizing v with
  | nil => simp [listMin] at h
  | cons x xs ih =>
    simp only [listMin] at h
    cases hxs : listMin xs with
    | none => rw [hxs] at h; simp at h; simp [h]
    | some w =>
      rw [hxs] at h
      simp at h
      rcases min_choice x w with hm | hm <;> rw [hm] at h
      · simp [h]
      · exact List.mem_cons_of_mem _ (ih v (by rw [hxs, h]))

theorem listMin_le (l : List Int) (v : Int) (h : listMin l = some v) :
    ∀ x ∈ l, v ≤ x := by
  induction l generalizing v with
  | nil => simp [listMin] at h
  | cons x xs ih =>
    simp only [listMin] at h
    cases hxs : listMin xs with
    | none =>
      rw [hxs] at h; simp at h
      have hnil : xs = [] := (listMin_eq_none_iff xs).mp hxs
      subst hnil; simp [h]
    | some w =>
      rw [hxs] at h; simp at h; subst h
      intro y hy
      rcases List.mem_cons.mp hy with rfl | hmem
      · exact min_le_left _ _
      · exact le_trans (min_le_right _ _) (ih w hxs y hmem)

theorem listMax_eq_none_iff (l : List Int) : listMax l = none ↔ l = [] := by
  cases l with
  | nil => simp [listMax]
  | cons v vs =>
    simp only [listMax]
    cases listMax vs <;> simp

theorem listMax_mem (l : List Int) (v : Int) (h : listMax l = some v) : v ∈ l := by
  induction l generalizing v with
  | nil => simp [listMax] at h
  | cons x xs ih =>
    simp only [listMax] at h
    cases hxs : listMax xs with
    | none => rw [hxs] at h; simp at h; simp [h]
    | some w =>
      rw [hxs] at h
      simp at h
      rcases max_choice x w with hm | hm <;> rw [hm] at h
      · simp [h]
      · exact List.mem_cons_of_mem _ (ih v (by rw [hxs, h]))

theorem le_listMax (l : List Int) (v : Int) (h : listMax l = some v) :
    ∀ x ∈ l, x ≤ v := by
  induction l generalizing v with
  | nil => simp [listMax] at h
  | cons x xs ih =>
    simp only [listMax] at h
    cases hxs : listMax xs with
    | none =>
      rw [hxs] at h; simp at h
      have hnil : xs = [] := (listMax_eq_none_iff xs).mp hxs
      subst hnil; simp [h]
    | some w =>
      rw [hxs] at h; simp at h; subst h
      intro y hy
      rcases List.mem_cons.mp hy with rfl | hmem
      · exact le_max_left _ _
      · exact le_trans (ih w hxs y hmem) (le_max_right _ _)

theorem firstByRtimeDesc_eq_none_iff (l : List Measure) :
    firstByRtimeDesc l = none ↔ l = [] := by
  cases l with
  | nil => simp [firstByRtimeDesc]
  | cons msr rest =>
    simp only [firstByRtimeDesc]
    cases firstByRtimeDesc rest with
    | none => simp
    | some best => by_cases hb : timeLt best.rtime msr.rtime = true <;> simp [hb]

theorem firstByRtimeDesc_spec (l : List Measure) (msr : Measure)
    (h : firstByRtimeDesc l = some msr) :
    msr ∈ l ∧ ∀ other ∈ l, other.rtime.data ≤ msr.rtime.data := by
  induction l generalizing msr with
  | nil => simp [firstByRtimeDesc] at h
  | cons x xs ih =>
    simp only [firstByRtimeDesc] at h
    cases hxs : firstByRtimeDesc xs with
    | none =>
      rw [hxs] at h; simp at h; subst h
      have hnil : xs = [] := (firstByRtimeDesc_eq_none_iff xs).mp hxs
      subst hnil
      exact ⟨by simp, by intro other ho; simp at ho; simp [ho]⟩
    | some best =>
      rw [hxs] at h
      obtain ⟨hbmem, hbmax⟩ := ih best hxs
      by_cases hlt : timeLt best.rtime x.rtime = true
      · simp [hlt] at h
        subst h
        refine ⟨by simp, ?_⟩
        intro other ho
        rcases List.mem_cons.mp ho with rfl | hc
        · exact le_refl _
        · exact le_trans (hbmax other hc)
            (le_of_lt (by simpa [timeLt] using hlt))
      · simp [hlt] at h
        subst h
        refine ⟨List.mem_cons_of_mem _ hbmem, ?_⟩
        intro other ho
        rcases List.mem_cons.mp ho with rfl | hc
        · exact le_of_not_lt (by simpa [timeLt] using hlt)
        · exact hbmax other hc

theorem get_current_user_spec (token : String) :
    (∀ u, get_current_user token = .ok u ↔
      fake_users_db.lookup token = some u) ∧
    (∀ e, get_current_user token = .error e ↔
      fake_users_db.lookup token = none ∧
        e = { status_code := 401, detail := ("Not authenticated") }) := by
  unfold get_current_user
  cases h : fake_users_db.lookup token <;>
    (simp [h]; try exact fun e => eq_comm)

theorem get_current_admin_spec (token : String) :
    (∀ u, get_current_admin token = .ok u ↔
      fake_users_db.lookup token = some u ∧ u.role = ("admin")) ∧
    (∀ e, get_current_admin token = .error e ↔
      (fake_users_db.lookup token = none ∧
        e = { status_code := 401, detail := ("Not authenticated") }) ∨
      (∃ u, fake_users_db.lookup token = some u ∧ u.role ≠ ("admin") ∧
        e = { status_code := 403, detail := ("Not enough permissions") })) := by
  unfold get_current_admin get_current_user
  cases h : fake_users_db.lookup token with
  | none => simp [h]; exact fun e => eq_comm
  | some u =>
    by_cases hr : u.role = ("admin") <;> (simp [h, hr]; try exact fun e => eq_comm)

/-! Claim theorems. -/

/-- Claim C1, evidence for the divergence: the claim states that an entry
for a (sensor, metric) pair is emitted whenever at least one Measure row
matches the sensor, the metric and the date.  In `exDbZero` the single row
matches sensor 1, metric 1 and the date 2019-07-28, yet `sensorMinMax`
emits no entry for the metric: the row's minimum `rvalue` is `0`, and the
source's `if query_min_value:` treats a `0.0` minimum like the absence of
rows.  The code contradicts its own stated purpose of returning the
minimum and maximum value of each metric for each sensor on that date. -/
theorem sensorMinMax_zero_minimum_dropped :
    exMeasureZero ∈ exDbZero.measures ∧
    exMeasureZero.sensor_id = exSensorA.sensor_id ∧
    exMeasureZero.metric_id = exMetricT.metric_id ∧
    rtimeLikeDate ("2019-07-28") exMeasureZero = true ∧
    sensorMinMax exDbZero ("2019-07-28") =
      [{ sensor := exSensorA, date := ("2019-07-28"), metrics := [] }] := by
  decide

/-- Claim C2: `measureFilter` returns exactly the Measures satisfying the
conjunction of the present criteria, each bound inclusive, and with all
six criteria absent it returns every Measure in the store exactly once
(the stored list itself, order and multiplicity untouched). -/
theorem measureFilter_conjunction (db : Database) (q : MeasureFilterQuery)
    (msr : Measure) :
    (msr ∈ measureFilter db q ↔ msr ∈ db.measures ∧
      (∀ v, q.target_sensor_id = some v → msr.sensor_id = v) ∧
      (∀ v, q.target_metric_id = some v → msr.metric_id = v) ∧
      (∀ v, q.time_from = some v → v.data ≤ msr.rtime.data) ∧
      (∀ v, q.time_to = some v → msr.rtime.data ≤ v.data) ∧
      (∀ v, q.value_from = some v → v ≤ msr.rvalue) ∧
      (∀ v, q.value_to = some v → msr.rvalue ≤ v)) ∧
    measureFilter db noFilter = db.measures := by
  constructor
  · unfold measureFilter
    rcases q with ⟨so, mo, tf, tt, vf, vt⟩
    cases so <;> cases mo <;> cases tf <;> cases tt <;> cases vf <;> cases vt <;>
      (simp [List.mem_filter, timeLe, and_assoc]; try tauto)
  · simp [measureFilter, noFilter]

/-- Claim C2 witness: Scenario A of the spec, evaluated concretely.  Both
rows of `exDbA` satisfy the six present criteria of `exQueryA`, and the
all-absent query returns the store's measure list itself. -/
theorem measureFilter_conjunction_witness :
    exMeasureA1 ∈ measureFilter exDbA exQueryA ∧
    exMeasureA2 ∈ measureFilter exDbA exQueryA ∧
    measureFilter exDbA noFilter = exDbA.measures := by
  refine ⟨(measureFilter_conjunction exDbA exQueryA exMeasureA1).1.mpr ?_,
    (measureFilter_conjunction exDbA exQueryA exMeasureA2).1.mpr ?_,
    (measureFilter_conjunction exDbA exQueryA exMeasureA1).2⟩ <;>
  · refine ⟨by decide, ?_, ?_, ?_, ?_, ?_, ?_⟩ <;>
    · intro v hv
      simp [exQueryA] at hv
      subst hv
      decide

/-- Claim C4: a Measure row is scanned by the min/max queries of
`sensorMinMax` for a target date iff its `sensor_id` and `metric_id` match
and the stored text of its `rtime` starts with the date's canonical text —
a plain prefix test on the text, however the text continues (any
time-of-day, or even no valid time at all). -/
theorem minMaxRows_date_match (db : Database) (target_date : String)
    (sid mid : Nat) (msr : Measure) :
    (msr ∈ minMaxRows db target_date sid mid ↔
      msr ∈ db.measures ∧ msr.sensor_id = sid ∧ msr.metric_id = mid ∧
        rtimeLikeDate target_date msr = true) ∧
    (∀ rest : String,
      rtimeLikeDate target_date
        { msr with rtime := target_date ++ rest } = true) := by
  constructor
  · simp [minMaxRows, List.mem_filter, and_assoc]
  · intro rest
    simp only [rtimeLikeDate]
    rw [List.isPrefixOf_iff_prefix, String.data_append]
    exact List.prefix_append _ _

/-- Claim C4 witness: concrete check that the prefix rule admits a row with
a time-of-day on the target date and rejects a row on the previous day. -/
theorem minMaxRows_date_match_witness :
    (exMeasureB1 ∈ minMaxRows exDbB ("2019-07-28") 1 1) ∧
    rtimeLikeDate ("2019-07-28")
      { exMeasureB1 with rtime := ("2019-07-28") ++ (" 23:59:59") } = true ∧
    rtimeLikeDate ("2019-07-28") exMeasureA1 = false := by
  refine ⟨(minMaxRows_date_match exDbB ("2019-07-28") 1 1 exMeasureB1).1.mpr
    (by decide),
    (minMaxRows_date_match exDbB ("2019-07-28") 1 1 exMeasureB1).2
      (" 23:59:59"),
    by decide⟩

/-- Claim C7, counterexample: the claim states the embedded latest-measure
record omits the Measure's own `sensor_id` (projected out rather than the
raw record being reused).  In the source, `SensorWithMeasure.latest_measure`
is a full `Measure`, and `sensorList` stores the queried row unchanged: on
`exDbB` the embedded record is exactly the stored row `exMeasureB2`, whose
`sensor_id` field is present and equals 1. -/
theorem sensorList_raw_measure_embedded_cex :
    sensorList exDbB =
      [{ sensor_id := 1, serial_code := ("A1"), name := ("alpha"),
         latest_measure := some exMeasureB2 }] ∧
    exMeasureB2.sensor_id = 1 := by
  decide

/-- Claim C8, evidence for the divergence: the claim states that a call
without an explicit date uses the current date at call time.  The source's
`target_date: date = date.today()` default is evaluated once when the
module loads, so a request arriving on 2019-07-28 to a process started on
2019-07-27 aggregates 2019-07-27 — and on `exDbB` that produces a
different result than the call-time date would. -/
theorem sensorMinMax_default_date_stale :
    defaultedTargetDate ("2019-07-27") ("2019-07-28") none = ("2019-07-27") ∧
    ("2019-07-27" : String) ≠ ("2019-07-28") ∧
    sensorMinMaxDefaulted exDbB ("2019-07-27") ("2019-07-28") none ≠
      sensorMinMax exDbB ("2019-07-28") := by
  decide

/-- Claim C3: every emitted entry of `sensorMinMax` carries the minimum and
the maximum `rvalue` of the rows matching the record's sensor, the entry's
metric and the date, and hence its minimum never exceeds its maximum. -/
theorem sensorMinMax_entry_min_max (db : Database) (target_date : String)
    (r : SensorMinMax) (e : MetricMinMax)
    (hr : r ∈ sensorMinMax db target_date) (he : e ∈ r.metrics) :
    ∃ mt ∈ db.metrics, e.metric = mt.metric_name ∧
      ∃ mn mx, e.min_value = some mn ∧ e.max_value = some mx ∧ mn ≤ mx ∧
        mn ∈ rowValues db target_date r.sensor.sensor_id mt.metric_id ∧
        mx ∈ rowValues db target_date r.sensor.sensor_id mt.metric_id ∧
        ∀ v ∈ rowValues db target_date r.sensor.sensor_id mt.metric_id,
          mn ≤ v ∧ v ≤ mx := by
  simp only [sensorMinMax, List.mem_map] at hr
  obtain ⟨s, hs, rfl⟩ := hr
  simp only [sensorRecord] at he ⊢
  rw [List.mem_filterMap] at he
  obtain ⟨mt, hmt, hf⟩ := he
  refine ⟨mt, hmt, ?_⟩
  unfold metricEntry at hf
  cases hmin : listMin (rowValues db target_date s.sensor_id mt.metric_id) with
  | none => rw [hmin] at hf; simp at hf
  | some mn =>
    rw [hmin] at hf
    by_cases hz : (mn == 0) = true
    · simp [hz] at hf
    · simp [hz] at hf
      subst hf
      cases hmax : listMax (rowValues db target_date s.sensor_id mt.metric_id) with
      | none =>
        exfalso
        have hnil := (listMax_eq_none_iff _).mp hmax
        rw [hnil] at hmin
        simp [listMin] at hmin
      | some mx =>
        refine ⟨rfl, mn, mx, rfl, by simp [hmax], ?_,
          listMin_mem _ _ hmin, listMax_mem _ _ hmax, ?_⟩
        · exact listMin_le _ _ hmin mx (listMax_mem _ _ hmax)
        · intro v hv
          exact ⟨listMin_le _ _ hmin v hv, le_listMax _ _ hmax v hv⟩

/-- Claim C3 witness: the record and entry `sensorMinMax` produces on
`exDbB` for 2019-07-28, with its minimum 24 and maximum 25. -/
theorem sensorMinMax_entry_min_max_witness :
    ∃ mt ∈ exDbB.metrics, exEntryB.metric = mt.metric_name ∧
      ∃ mn mx, exEntryB.min_value = some mn ∧ exEntryB.max_value = some mx ∧
        mn ≤ mx ∧
        mn ∈ rowValues exDbB ("2019-07-28") exRecordB.sensor.sensor_id
          mt.metric_id ∧
        mx ∈ rowValues exDbB ("2019-07-28") exRecordB.sensor.sensor_id
          mt.metric_id ∧
        ∀ v ∈ rowValues exDbB ("2019-07-28") exRecordB.sensor.sensor_id
            mt.metric_id, mn ≤ v ∧ v ≤ mx :=
  sensorMinMax_entry_min_max exDbB ("2019-07-28") exRecordB exEntryB
    (by decide) (by decide)

/-- Claim C5: every listing record of `sensorList` whose sensor owns at
least one Measure carries some latest Measure, and any carried Measure is
one of that sensor's stored rows with the maximum `rtime` among them. -/
theorem sensorList_latest_is_max_rtime (db : Database)
    (sw : SensorWithMeasure) (hsw : sw ∈ sensorList db) :
    ((∃ msr ∈ db.measures, msr.sensor_id = sw.sensor_id) →
      ∃ msr, sw.latest_measure = some msr) ∧
    ∀ msr, sw.latest_measure = some msr →
      msr ∈ db.measures ∧ msr.sensor_id = sw.sensor_id ∧
        ∀ other ∈ db.measures, other.sensor_id = sw.sensor_id →
          other.rtime.data ≤ msr.rtime.data := by
  simp only [sensorList, List.mem_map] at hsw
  obtain ⟨s, hs, rfl⟩ := hsw
  simp only
  constructor
  · rintro ⟨msr, hm, hsid⟩
    cases hlf : latestFor db s.sensor_id with
    | some b => exact ⟨b, rfl⟩
    | none =>
      exfalso
      unfold latestFor at hlf
      have hnil := (firstByRtimeDesc_eq_none_iff _).mp hlf
      have hmem : msr ∈ db.measures.filter
          (fun m => m.sensor_id == s.sensor_id) := by
        rw [List.mem_filter]
        exact ⟨hm, by simpa using hsid⟩
      rw [hnil] at hmem
      simp at hmem
  · intro msr hmsr
    unfold latestFor at hmsr
    obtain ⟨hmem, hmax⟩ := firstByRtimeDesc_spec _ _ hmsr
    rw [List.mem_filter] at hmem
    refine ⟨hmem.1, by simpa using hmem.2, ?_⟩
    intro other homem hosid
    refine hmax other ?_
    rw [List.mem_filter]
    exact ⟨homem, by simpa using hosid⟩

/-- Claim C5 witness: on `exDbB`, whose sensor 1 has rows at 03:00 and
06:00 of 2019-07-28, `sensorList` pairs the sensor with the 06:00 row
`exMeasureB2`, and that row's `rtime` is maximal. -/
theorem sensorList_latest_is_max_rtime_witness :
    exSwB ∈ sensorList exDbB ∧ exSwB.latest_measure = some exMeasureB2 ∧
    exMeasureB2 ∈ exDbB.measures ∧
    exMeasureB2.sensor_id = exSwB.sensor_id ∧
    ∀ other ∈ exDbB.measures, other.sensor_id = exSwB.sensor_id →
      other.rtime.data ≤ exMeasureB2.rtime.data := by
  have h := (sensorList_latest_is_max_rtime exDbB exSwB (by decide)).2
    exMeasureB2 (by decide)
  exact ⟨by decide, by decide, h.1, h.2.1, h.2.2⟩

/-- Claim C6: a sensor with zero Measures still appears in the output of
`sensorList`, with an absent latest measure; no error is possible, the
operation being a total function. -/
theorem sensorList_sensor_without_measures (db : Database) (s : Sensor)
    (hs : s ∈ db.sensors)
    (hnone : ∀ msr ∈ db.measures, msr.sensor_id ≠ s.sensor_id) :
    ({ sensor_id := s.sensor_id, serial_code := s.serial_code,
       name := s.name, latest_measure := none } : SensorWithMeasure)
      ∈ sensorList db := by
  have hfil : db.measures.filter (fun msr => msr.sensor_id == s.sensor_id)
      = [] := by
    rw [List.filter_eq_nil_iff]
    intro msr hm
    simpa using hnone msr hm
  have hlf : latestFor db s.sensor_id = none := by
    unfold latestFor
    rw [hfil]
    rfl
  simp only [sensorList, List.mem_map]
  exact ⟨s, hs, by rw [hlf]⟩

/-- Claim C6 witness: sensor 7 of `exDb7` owns no measures and is listed
with an absent latest measure. -/
theorem sensorList_sensor_without_measures_witness :
    exSw7 ∈ sensorList exDb7 := by
  have h := sensorList_sensor_without_measures exDb7 exSensor7
    (by decide) (by decide)
  exact h

/-- Claim C7, amended: the embedded latest-measure record of `sensorList`
is the raw stored Measure row itself, so it retains its own `sensor_id`
field; that field is redundant, always equal to the outer `sensor_id`. -/
theorem sensorList_embedded_measure_keeps_sensor_id (db : Database)
    (sw : SensorWithMeasure) (msr : Measure)
    (hsw : sw ∈ sensorList db) (hmsr : sw.latest_measure = some msr) :
    msr ∈ db.measures ∧ msr.sensor_id = sw.sensor_id := by
  simp only [sensorList, List.mem_map] at hsw
  obtain ⟨s, hs, rfl⟩ := hsw
  unfold latestFor at hmsr
  obtain ⟨hmem, _⟩ := firstByRtimeDesc_spec _ _ hmsr
  rw [List.mem_filter] at hmem
  exact ⟨hmem.1, by simpa using hmem.2⟩

/-- Claim C7 witness for the amended statement: the raw row `exMeasureB2`
is embedded with its `sensor_id` equal to the outer one. -/
theorem sensorList_embedded_measure_keeps_sensor_id_witness :
    exMeasureB2 ∈ exDbB.measures ∧ exMeasureB2.sensor_id = exSwB.sensor_id :=
  sensorList_embedded_measure_keeps_sensor_id exDbB exSwB exMeasureB2
    (by decide) (by decide)

/-- Claim C9: the min/max aggregator endpoint answers iff the bearer token
belongs to a recognized user and otherwise fails with 401 before the core
runs, and the filter endpoint answers iff the token belongs to a
recognized user whose role is `admin` and otherwise fails with 401 (not
recognized) or 403 (recognized, not admin); in both success cases the
payload is the pure core result, which takes no caller identity at all. -/
theorem endpoint_auth_gate (db : Database) (token target_date : String)
    (q : MeasureFilterQuery) :
    (sensorMinMaxEndpoint db token target_date
        = .ok (sensorMinMax db target_date) ↔
      ∃ u, fake_users_db.lookup token = some u) ∧
    (∀ e, sensorMinMaxEndpoint db token target_date = .error e →
      fake_users_db.lookup token = none ∧ e.status_code = 401) ∧
    (measureFilterEndpoint db token q = .ok (measureFilter db q) ↔
      ∃ u, fake_users_db.lookup token = some u ∧ u.role = ("admin")) ∧
    (∀ e, measureFilterEndpoint db token q = .error e →
      (fake_users_db.lookup token = none ∧ e.status_code = 401) ∨
      (∃ u, fake_users_db.lookup token = some u ∧ u.role ≠ ("admin") ∧
        e.status_code = 403)) := by
  obtain ⟨huok, huerr⟩ := get_current_user_spec token
  obtain ⟨haok, haerr⟩ := get_current_admin_spec token
  refine ⟨?_, ?_, ?_, ?_⟩
  · unfold sensorMinMaxEndpoint
    cases hg : get_current_user token with
    | error e =>
      constructor
      · intro h; simp at h
      · rintro ⟨u, hu⟩
        have hok := (huok u).mpr hu
        rw [hg] at hok
        simp at hok
    | ok u =>
      exact iff_of_true rfl ⟨u, (huok u).mp hg⟩
  · intro e he
    unfold sensorMinMaxEndpoint at he
    cases hg : get_current_user token with
    | error e2 =>
      rw [hg] at he
      simp at he
      subst he
      obtain ⟨hn, he2⟩ := (huerr e2).mp hg
      exact ⟨hn, by rw [he2]⟩
    | ok u => rw [hg] at he; simp at he
  · unfold measureFilterEndpoint
    cases hg : get_current_admin token with
    | error e =>
      constructor
      · intro h; simp at h
      · rintro ⟨u, hu, hrole⟩
        have hok := (haok u).mpr ⟨hu, hrole⟩
        rw [hg] at hok
        simp at hok
    | ok u =>
      exact iff_of_true rfl ⟨u, (haok u).mp hg⟩
  · intro e he
    unfold measureFilterEndpoint at he
    cases hg : get_current_admin token with
    | error e2 =>
      rw [hg] at he
      simp at he
      subst he
      rcases (haerr e2).mp hg with ⟨hn, he2⟩ | ⟨u, hu, hrole, he2⟩
      · exact Or.inl ⟨hn, by rw [he2]⟩
      · exact Or.inr ⟨u, hu, hrole, by rw [he2]⟩
    | ok u => rw [hg] at he; simp at he

/-- Claim C9 witness: the recognized user token reaches the aggregator, and
the recognized admin token reaches the filter. -/
theorem endpoint_auth_gate_witness :
    sensorMinMaxEndpoint exDbB ("john_user") ("2019-07-28")
      = .ok (sensorMinMax exDbB ("2019-07-28")) ∧
    measureFilterEndpoint exDbB ("alvin_admin") noFilter
      = .ok (measureFilter exDbB noFilter) :=
  ⟨(endpoint_auth_gate exDbB ("john_user") ("2019-07-28") noFilter).1.mpr
      ⟨johnUser, by decide⟩,
    (endpoint_auth_gate exDbB ("alvin_admin") ("2019-07-28") noFilter).2.2.1.mpr
      ⟨alvinAdmin, by decide, by decide⟩⟩

/-- Claim C10: `sensorMinMax` returns exactly one record per stored sensor,
in scan order, each carrying the target date; a sensor none of whose
measures match the date keeps its record, with an empty metrics list. -/
theorem sensorMinMax_row_per_sensor (db : Database) (target_date : String) :
    (sensorMinMax db target_date).map (fun r => r.sensor) = db.sensors ∧
    ∀ r ∈ sensorMinMax db target_date, r.date = target_date ∧
      ((∀ msr ∈ db.measures,
          ¬(msr.sensor_id = r.sensor.sensor_id ∧
            rtimeLikeDate target_date msr = true)) → r.metrics = []) := by
  constructor
  · simp [sensorMinMax, List.map_map, sensorRecord, Function.comp_def]
  · intro r hr
    simp only [sensorMinMax, List.mem_map] at hr
    obtain ⟨s, hs, rfl⟩ := hr
    refine ⟨rfl, ?_⟩
    intro hnone
    simp only [sensorRecord] at hnone ⊢
    rw [List.filterMap_eq_nil_iff]
    intro mt hmt
    have hrows : minMaxRows db target_date s.sensor_id mt.metric_id = [] := by
      rw [minMaxRows, List.filter_eq_nil_iff]
      intro msr hm
      intro hconj
      simp only [Bool.and_eq_true, beq_iff_eq] at hconj
      exact hnone msr hm ⟨hconj.1.1, hconj.2⟩
    unfold metricEntry
    simp [rowValues, hrows, listMin]

/-- Claim C10 witness: on `exDb7` sensor 7 keeps its record with an empty
metrics list, and the record list mirrors the sensor list. -/
theorem sensorMinMax_row_per_sensor_witness :
    (sensorMinMax exDb7 ("2019-07-28")).map (fun r => r.sensor)
      = exDb7.sensors ∧
    (sensorRecord exDb7 ("2019-07-28") exSensor7).metrics = [] := by
  refine ⟨(sensorMinMax_row_per_sensor exDb7 ("2019-07-28")).1, ?_⟩
  exact ((sensorMinMax_row_per_sensor exDb7 ("2019-07-28")).2
    (sensorRecord exDb7 ("2019-07-28") exSensor7) (by decide)).2 (by decide)

end AranetApi
